import Mathlib

set_option autoImplicit false

/-!
Shallow embedding of the djview layer/context library (src/djview): the
per-request ambient context (context.py), the layer composer and standard
layers (views.py), authentication/permission layers (auth.py), and the CRUD
service builders with the limit/offset pagination filterer (crud.py).

Python values that may be absent or None are modelled with Option; Python
exceptions escaping a function are modelled by an Option/Except result.
Dictionaries are association lists looked up by first match.
-/

/-- JSON values, as produced by JsonResponse bodies and carried by exception
attributes such as code and details. -/
inductive JValue where
  | jnull
  | jbool (b : Bool)
  | jint (n : Int)
  | jstr (s : String)
  | jarr (elems : List JValue)
  | jobj (fields : List (String × JValue))

/-- Model of a Django user principal: the is-authenticated flag and the set of
permission names granted, so that has_perm p is membership of p. -/
structure PyUser where
  is_authenticated : Bool
  perms : List String
deriving DecidableEq

/-- Model of django.contrib.auth.models.AnonymousUser: not authenticated and
has_perm is False for every permission name. -/
def anonymous_user : PyUser :=
  { is_authenticated := false, perms := [] }

/-- Model of a Python exception object as consumed by
default_exception_handler: msg is str(exception), and the three Option fields
model hasattr probing of the optional status code, code and details
attributes. -/
structure PyExn where
  msg : String
  status_code : Option Int
  code : Option JValue
  details : Option (List (String × JValue))

/-- Model of a Django HttpRequest: the HTTP method and the GET query
parameters (QueryDict.get returns the value of the first matching key here;
djview only reads single-valued parameters). -/
structure PyRequest where
  method : String
  GET : List (String × String)

/-- Values stored in the ambient context dictionary. -/
inductive CtxVal where
  | exn (e : PyExn)
  | user (u : PyUser)
  | req (r : PyRequest)
  | str (s : String)
  | int (n : Int)

/-- The ambient context facet: the per-request dictionary held by the
djview_context ContextVar. -/
abbrev Ctx := List (String × CtxVal)

/-- Dictionary read, ctx.get(k): the value of the first entry with key k. -/
def ctxGet (ctx : Ctx) (k : String) : Option CtxVal :=
  match ctx.find? (fun p => p.1 == k) with
  | none => none
  | some p => some p.2

/-- Dictionary write, ctx[k] = v: the new binding shadows (replaces) any
previous binding of k. -/
def ctxSet (ctx : Ctx) (k : String) (v : CtxVal) : Ctx :=
  (k, v) :: ctx.filter (fun p => p.1 != k)

/-- The reserved key under which set_request stores the inbound request
(context.py _HTTP_REQUEST_KEY). -/
def HTTP_REQUEST_KEY : String := "__request__"

/-- Context.request: self.get(_HTTP_REQUEST_KEY), None when absent or when
the stored value is not a request. -/
def ctxRequest (ctx : Ctx) : Option PyRequest :=
  match ctxGet ctx HTTP_REQUEST_KEY with
  | some (CtxVal.req r) => some r
  | _ => none

theorem ctxGet_ctxSet_self (ctx : Ctx) (k : String) (v : CtxVal) :
    ctxGet (ctxSet ctx k v) k = some v := by
  simp [ctxGet, ctxSet, List.find?]

/-- Model of django HttpResponseBase values produced by djview: a JsonResponse
with a status and an object body, an HttpResponse carrying serializer output
(content type and content of type γ, status defaulting to 200 at call
sites), or a bodyless HttpResponse such as the 204. -/
inductive Response (γ : Type) where
  | json (status : Int) (body : List (String × JValue))
  | content (status : Int) (contentType : String) (body : γ)
  | noContent (status : Int)

/-- A Service maps a Context to a response (views.py Service). -/
abbrev Service (γ : Type) := Ctx → Response γ

/-- view204: HttpResponse(status=204). -/
def view204 {γ : Type} (_ : Ctx) : Response γ :=
  Response.noContent 204

/-- view404: the fixed not-found JsonResponse. -/
def view404 {γ : Type} (_ : Ctx) : Response γ :=
  Response.json 404
    [("message", JValue.jstr "not found"),
     ("code", JValue.jint 404),
     ("details", JValue.jobj [])]

/-- view403: the fixed permission-denied JsonResponse. -/
def view403 {γ : Type} (_ : Ctx) : Response γ :=
  Response.json 403
    [("message", JValue.jstr "you do not have permission to perform this action"),
     ("code", JValue.jint 403),
     ("details", JValue.jobj [])]

/-- layers(*outers): iterates the layer list in reversed order, each step
wrapping the accumulated service, so the first-listed layer is applied last
and ends up outermost. The Python function is untyped composition, so the
service type σ is abstract. -/
def layers {σ : Type} (outers : List (σ → σ)) : σ → σ :=
  fun service => (outers.reverse).foldl (fun s outer => outer s) service

/-- into_service(*outers, service=S): layers(*outers)(S). -/
def into_service {σ : Type} (outers : List (σ → σ)) (service : σ) : σ :=
  layers outers service

theorem layers_nil {σ : Type} (s : σ) : layers [] s = s := rfl

theorem layers_cons {σ : Type} (L : σ → σ) (ls : List (σ → σ)) (s : σ) :
    layers (L :: ls) s = L (layers ls s) := by
  simp [layers, List.foldl_append]

/-- case_layer(condition, *outers, service=S): builds the alternate composed
service once via into_service, then the returned layer dispatches each
context to it when the condition holds and to the wrapped service otherwise.
Like the Python original it never inspects the service values, so the context
type σ and response type ρ are abstract. -/
def case_layer {σ ρ : Type} (condition : σ → Bool)
    (outers : List ((σ → ρ) → σ → ρ)) (service : σ → ρ) :
    (σ → ρ) → σ → ρ :=
  let condition_service := into_service outers service
  fun inner => fun ctx =>
    if condition ctx then condition_service ctx else inner ctx

/-- The reserved context key under which exception_layer stores a caught
exception (views.py EXCEPTION_RESULT_CONTEXT_KEY). -/
def EXCEPTION_RESULT_CONTEXT_KEY : String := "__exception__"

/-- default_exception_handler: reads the exception stored under the reserved
key (none models the KeyError raised when it is absent or is not an
exception), resolves status from the optional status_code attribute (500 when
absent), code from the optional code attribute (the resolved status when
absent), details from the optional details attribute (empty object when
absent), and suppresses the message exactly when the resolved status is
500. -/
def default_exception_handler (γ : Type) (ctx : Ctx) : Option (Response γ) :=
  match ctxGet ctx EXCEPTION_RESULT_CONTEXT_KEY with
  | some (CtxVal.exn exception) =>
    let status_code : Int :=
      match exception.status_code with
      | none => 500
      | some s => s
    let code : JValue :=
      match exception.code with
      | none => JValue.jint status_code
      | some c => c
    let details : JValue :=
      match exception.details with
      | none => JValue.jobj []
      | some d => JValue.jobj d
    let message : String :=
      if status_code != 500 then exception.msg else "internal server error"
    some (Response.json status_code
      [("message", JValue.jstr message), ("code", code), ("details", details)])
  | _ => none

/-- exception_layer: wraps a service that may raise (Except result); on a
raise it stores the exception in the context under result_ctx_key and
dispatches to the exception-handling service. The handler argument stands for
the precomposed into_service(*outers, service=service) of the Python code and
may itself fail (Option), as default_exception_handler does on a missing
key. -/
def exception_layer {γ : Type} (handler : Ctx → Option (Response γ))
    (result_ctx_key : String)
    (service : Ctx → Except PyExn (Response γ)) : Ctx → Option (Response γ) :=
  fun ctx =>
    match service ctx with
    | Except.ok resp => some resp
    | Except.error e => handler (ctxSet ctx result_ctx_key (CtxVal.exn e))

/-- A permission rule: a predicate over the context (auth.py Rule). -/
abbrev Rule := Ctx → Bool

/-- The loop body of permission_layer: returns view403 at the first rule that
evaluates to false, and falls through to the wrapped service when every rule
holds. -/
def permission_go {γ : Type} : List Rule → Service γ → Ctx → Response γ
  | [], service, ctx => service ctx
  | r :: rs, service, ctx =>
    if r ctx then permission_go rs service ctx else view403 ctx

/-- permission_layer(*rules): the layer whose wrapper short-circuits to the
fixed 403 response when some rule fails and delegates otherwise. -/
def permission_layer {γ : Type} (rules : List Rule) : Service γ → Service γ :=
  fun service ctx => permission_go rules service ctx

/-- The reserved context key under which authentication_layer stores the
resolved principal (auth.py USER_CONTEXT_KEY). -/
def USER_CONTEXT_KEY : String := "__user__"

/-- The credential dict comprehension of authentication_layer: key by key,
ctx[key]; a missing key raises KeyError, modelled by none. -/
def build_credentials (ctx : Ctx) : List String → Option (List (String × CtxVal))
  | [] => some []
  | k :: ks =>
    match ctxGet ctx k with
    | none => none
    | some v =>
      match build_credentials ctx ks with
      | none => none
      | some rest => some ((k, v) :: rest)

/-- authentication_layer(*kwarg_keys, user_ctx_key): resolves a principal via
the external authenticator (django.contrib.auth.authenticate, passed in as a
parameter) applied to ctx.request and the selected context values, replaces a
None result by AnonymousUser (the Python or-expression), stores the result
under user_ctx_key, then continues to the wrapped service. A missing
credential key raises, modelled by none. -/
def authentication_layer {γ : Type}
    (authenticate : Option PyRequest → List (String × CtxVal) → Option PyUser)
    (kwarg_keys : List String) (user_ctx_key : String)
    (service : Service γ) : Ctx → Option (Response γ) :=
  fun ctx =>
    match build_credentials ctx kwarg_keys with
    | none => none
    | some creds =>
      let u : PyUser := (authenticate (ctxRequest ctx) creds).getD anonymous_user
      some (service (ctxSet ctx user_ctx_key (CtxVal.user u)))

/-- One conjunct of the has_permissions_layer rule: ctx[user_ctx_key].has_perm
for one permission name. In Python a missing or non-user value under the key
raises; that case is modelled as false here and is never reached below, since
for an empty permission list the surrounding any-generator never evaluates its
body (mirrored by List.any on the empty list). -/
def has_perm_check (user_ctx_key : String) (ctx : Ctx) (perm : String) : Bool :=
  match ctxGet ctx user_ctx_key with
  | some (CtxVal.user u) => u.perms.contains perm
  | _ => false

/-- The single rule supplied by has_permissions_layer: not any permission
fails for the principal stored under user_ctx_key. -/
def has_permissions_rule (permissions : List String) (user_ctx_key : String) : Rule :=
  fun ctx => !(permissions.any (fun perm => !(has_perm_check user_ctx_key ctx perm)))

/-- has_permissions_layer(*permissions, user_ctx_key): permission_layer with
the single all-permissions rule. -/
def has_permissions_layer {γ : Type} (permissions : List String)
    (user_ctx_key : String) : Service γ → Service γ :=
  permission_layer [has_permissions_rule permissions user_ctx_key]

/-- A CRUD filterer (crud.py Filterer): receives the context and the
Optional previous value (None before the first filterer) and returns an
iterable of Python values, each of which may itself be None. -/
abbrev FiltererM (α : Type) := Ctx → Option (List (Option α)) → List (Option α)

/-- A CRUD serializer (crud.py Serializer): context and Python instance value
to a content-type/content pair. -/
abbrev SerializerM (α γ : Type) := Ctx → Option α → String × γ

/-- A CRUD mutator (crud.py Mutator): context and Python instance value to the
mutated value and an optional error response. -/
abbrev MutatorM (α γ : Type) := Ctx → Option α → Option α × Option (Response γ)

/-- The shared filterer loop of the CRUD builders: instances starts as None
and each filterer receives the previous result. The result is none exactly
when the chain is empty, in which case the final value is still Python None
and the subsequent for-loop over it raises a TypeError. -/
def run_filterers {α : Type} (filterers : List (FiltererM α)) (ctx : Ctx) :
    Option (List (Option α)) :=
  filterers.foldl (fun acc f => some (f ctx acc)) none

/-- The first-element idiom of detail/update/delete: instance = None, then
for instance in instances: break. The resulting Python value is the first
element when the iterable is non-empty and None otherwise, so an iterable
whose first element is None yields the same value None as an empty one. -/
def first_instance {α : Type} (instances : List (Option α)) : Option α :=
  match instances with
  | [] => none
  | x :: _ => x

/-- detail_service(serializer, *filterers): threads None through the
filterers, takes the first element, answers view404 when that value is None,
and otherwise serializes it into a 200 HttpResponse. none models the
TypeError of iterating Python None when the filterer chain is empty. -/
def detail_service {α γ : Type} (serializer : SerializerM α γ)
    (filterers : List (FiltererM α)) : Ctx → Option (Response γ) :=
  fun ctx =>
    match run_filterers filterers ctx with
    | none => none
    | some instances =>
      match first_instance instances with
      | none => some (view404 ctx)
      | some inst =>
        let serialized := serializer ctx (some inst)
        some (Response.content 200 serialized.1 serialized.2)

/-- update_service(mutater, serializer, *filterers): locate the first instance
(view404 when it is None), mutate, return the error response when the mutator
produced one, otherwise serialize the mutated value into a 200 HttpResponse. -/
def update_service {α γ : Type} (mutater : MutatorM α γ)
    (serializer : SerializerM α γ) (filterers : List (FiltererM α)) :
    Ctx → Option (Response γ) :=
  fun ctx =>
    match run_filterers filterers ctx with
    | none => none
    | some instances =>
      match first_instance instances with
      | none => some (view404 ctx)
      | some inst =>
        let mutated := mutater ctx (some inst)
        match mutated.2 with
        | some error => some error
        | none =>
          let serialized := serializer ctx mutated.1
          some (Response.content 200 serialized.1 serialized.2)

/-- delete_service(mutater, *filterers): locate the first instance (view404
when it is None), mutate, return the error response when the mutator produced
one, otherwise view204. -/
def delete_service {α γ : Type} (mutater : MutatorM α γ)
    (filterers : List (FiltererM α)) : Ctx → Option (Response γ) :=
  fun ctx =>
    match run_filterers filterers ctx with
    | none => none
    | some instances =>
      match first_instance instances with
      | none => some (view404 ctx)
      | some inst =>
        let mutated := mutater ctx (some inst)
        match mutated.2 with
        | some error => some error
        | none => some (view204 ctx)

/-- Decimal value of a digit list, most significant first. -/
def digitsVal (digits : List Char) : Nat :=
  digits.foldl (fun acc c => acc * 10 + (c.toNat - 48)) 0

/-- Core of the int() model on an already stripped character list: an
optional single sign followed by at least one decimal digit. -/
def pyIntCore (cs : List Char) : Option Int :=
  match cs with
  | [] => none
  | c :: rest =>
    let signed : Bool × List Char :=
      if c = '-' then (true, rest)
      else if c = '+' then (false, rest)
      else (false, cs)
    if signed.2 ≠ [] ∧ signed.2.all Char.isDigit then
      some (if signed.1 then -(digitsVal signed.2 : Int) else (digitsVal signed.2 : Int))
    else none

/-- Model of the Python built-in int() applied to a query-parameter string:
surrounding whitespace is stripped, then an optional sign and decimal digits;
anything else raises ValueError, modelled by none. (Underscore digit grouping
of Python literals is not modelled; no claim depends on it.) -/
def pyInt (s : String) : Option Int :=
  pyIntCore (((s.toList.dropWhile Char.isWhitespace).reverse.dropWhile
    Char.isWhitespace).reverse)

/-- QueryDict.get on the GET parameters. -/
def queryGet (params : List (String × String)) (key : String) : Option String :=
  match params.find? (fun p => p.1 == key) with
  | none => none
  | some p => some p.2

/-- One try/int/except block of limit_offset_filterer: int(GET.get(key, d))
with fallback to d when int() raises. When the parameter is absent, get
returns the integer default and int() is the identity on it. -/
def query_int (params : List (String × String)) (key : String) (dflt : Int) : Int :=
  match queryGet params key with
  | none => dflt
  | some s =>
    match pyInt s with
    | none => dflt
    | some n => n

/-- itertools.islice(xs, start, stop): raises ValueError (none) when either
bound is negative, and otherwise yields the elements with index in the
half-open interval from start to stop. -/
def islice {α : Type} (xs : List α) (start stop : Int) : Option (List α) :=
  if 0 ≤ start ∧ 0 ≤ stop then
    some ((xs.drop start.toNat).take (stop.toNat - start.toNat))
  else none

/-- limit_offset_filterer(limit_kwarg, offset_kwarg): parses limit (default
10) and offset (default 0) from the request's GET parameters with fallback to
the defaults when int() raises, then returns
islice(instances, offset, offset + min(limit, 500)). none models the
AttributeError when the context holds no request, the TypeError when the
previous value is Python None, and the ValueError of islice on negative
bounds. -/
def limit_offset_filterer {α : Type} (limit_kwarg offset_kwarg : String)
    (ctx : Ctx) (instances : Option (List α)) : Option (List α) :=
  match ctxRequest ctx with
  | none => none
  | some r =>
    let limit : Int := query_int r.GET limit_kwarg 10
    let offset : Int := query_int r.GET offset_kwarg 0
    match instances with
    | none => none
    | some xs => islice xs offset (offset + min limit 500)

/-- enter_context(initial_data): the contextmanager of context.py run around
an arbitrary wrapped computation. The body receives the ambient facet (the
ContextVar value, none when unset) holding a copy of the initial data, and
returns its outcome together with the facet it leaves behind. On a normal
return the reset(token) line restores the facet that was current before the
set; when the body raises, the generator has no try/finally around its yield,
so the reset is skipped and the facet left by the body stays installed. A
shallow copy of the immutable model values is the mapping itself. -/
def enter_context {α : Type} (initial_data : Option Ctx)
    (body : Option Ctx → Except PyExn α × Option Ctx)
    (ambient : Option Ctx) : Except PyExn α × Option Ctx :=
  let installed : Ctx := initial_data.getD []
  match body (some installed) with
  | (Except.ok a, _) => (Except.ok a, ambient)
  | (Except.error e, left) => (Except.error e, left)

/-- Instrumented layer over trace-producing services: records its pre event
before and its post event after the events of the service it wraps. -/
def traceWrap (tag : String) : (Unit → List String) → Unit → List String :=
  fun service u => ("pre:" ++ tag) :: (service u ++ ["post:" ++ tag])

/-- Claim C2: layers applied to a finite ordered layer list and a terminal
service equals the nested application with the first-listed layer outermost
(the empty and cons equations and the foldr characterisation), and on
instrumented trace layers the composed chain runs the pre events in list
order first and the post events in reversed order last. -/
theorem layers_first_listed_outermost :
    (∀ (σ : Type) (s : σ), layers [] s = s) ∧
    (∀ (σ : Type) (L : σ → σ) (ls : List (σ → σ)) (s : σ),
        layers (L :: ls) s = L (layers ls s)) ∧
    (∀ (σ : Type) (ls : List (σ → σ)) (s : σ),
        into_service ls s = ls.foldr (fun outer acc => outer acc) s) ∧
    (∀ (tags base : List String),
        into_service (tags.map traceWrap) (fun _ => base) () =
          tags.map (fun t => "pre:" ++ t) ++ base ++
            (tags.reverse.map (fun t => "post:" ++ t))) := by
  have hnest : ∀ (σ : Type) (ls : List (σ → σ)) (s : σ),
      into_service ls s = ls.foldr (fun outer acc => outer acc) s := by
    intro σ ls s
    induction ls with
    | nil => rfl
    | cons L ls ih =>
      show layers (L :: ls) s = _
      rw [layers_cons, List.foldr_cons]
      exact congrArg L ih
  refine ⟨fun σ s => rfl, fun σ L ls s => layers_cons L ls s, hnest, ?_⟩
  intro tags base
  induction tags with
  | nil => simp [into_service, layers]
  | cons t ts ih =>
    simp only [List.map_cons]
    rw [show into_service (traceWrap t :: ts.map traceWrap) (fun _ : Unit => base) =
        traceWrap t (into_service (ts.map traceWrap) (fun _ => base)) from
      layers_cons _ _ _]
    show ("pre:" ++ t) ::
        (into_service (ts.map traceWrap) (fun _ => base) () ++ ["post:" ++ t]) = _
    rw [ih]
    simp [List.append_assoc]

/-- Claim C7: the service built by case_layer is total over contexts: for
every context, either the condition holds and the response is that of the
alternate composed service, or the condition fails and the response is that
of the wrapped service, and the two cases cannot hold together. -/
theorem case_layer_total (σ ρ : Type) (condition : σ → Bool)
    (outers : List ((σ → ρ) → σ → ρ)) (service : σ → ρ) (inner : σ → ρ)
    (ctx : σ) :
    ((condition ctx = true ∧
        case_layer condition outers service inner ctx = into_service outers service ctx) ∨
     (condition ctx = false ∧
        case_layer condition outers service inner ctx = inner ctx)) ∧
    ¬ ((condition ctx = true ∧
        case_layer condition outers service inner ctx = into_service outers service ctx) ∧
       (condition ctx = false ∧
        case_layer condition outers service inner ctx = inner ctx)) := by
  constructor
  · cases hc : condition ctx with
    | true => exact Or.inl ⟨rfl, by simp [case_layer, hc]⟩
    | false => exact Or.inr ⟨rfl, by simp [case_layer, hc]⟩
  · rintro ⟨⟨h1, -⟩, ⟨h2, -⟩⟩
    rw [h1] at h2
    exact Bool.noConfusion h2

/-- Concrete services for exercising case_layer. -/
def w7alt : Ctx → Response String := fun _ => Response.noContent 201

/-- Concrete wrapped service for exercising case_layer. -/
def w7inner : Ctx → Response String := fun _ => Response.noContent 204

/-- Witness for the case_layer theorem at concrete inputs: a false condition
selects exactly the wrapped service and a true condition selects exactly the
alternate composed service. -/
theorem case_layer_total_witness :
    case_layer (fun _ => false) [] w7alt w7inner [] = w7inner [] ∧
    case_layer (fun _ => true) [] w7alt w7inner [] = into_service [] w7alt [] := by
  constructor
  · rcases (case_layer_total Ctx (Response String) (fun _ => false) [] w7alt
        w7inner []).1 with ⟨h1, -⟩ | ⟨-, h2⟩
    · exact Bool.noConfusion h1
    · exact h2
  · rcases (case_layer_total Ctx (Response String) (fun _ => true) [] w7alt
        w7inner []).1 with ⟨-, h2⟩ | ⟨h1, -⟩
    · exact h2
    · exact Bool.noConfusion h1

/-- Claim C6: permission_layer answers the fixed 403 JSON response as soon as
some rule evaluates to false on the context, and delegates to the wrapped
service unchanged when every rule evaluates to true. -/
theorem permission_layer_rules (γ : Type) (rules : List Rule)
    (service : Service γ) (ctx : Ctx) :
    ((∃ r ∈ rules, r ctx = false) →
        permission_layer rules service ctx =
          Response.json 403
            [("message", JValue.jstr "you do not have permission to perform this action"),
             ("code", JValue.jint 403),
             ("details", JValue.jobj [])]) ∧
    ((∀ r ∈ rules, r ctx = true) →
        permission_layer rules service ctx = service ctx) := by
  induction rules with
  | nil =>
    refine ⟨?_, fun _ => rfl⟩
    rintro ⟨r, hr, -⟩
    exact absurd hr (List.not_mem_nil r)
  | cons r rs ih =>
    constructor
    · rintro ⟨r0, hr0, hfalse⟩
      cases hrc : r ctx with
      | false => simp [permission_layer, permission_go, hrc, view403]
      | true =>
        rcases List.mem_cons.mp hr0 with h | h
        · subst h
          rw [hrc] at hfalse
          exact Bool.noConfusion hfalse
        · have htail := ih.1 ⟨r0, h, hfalse⟩
          simp only [permission_layer] at htail ⊢
          simpa [permission_go, hrc] using htail
    · intro hall
      have hr : r ctx = true := hall r (List.mem_cons_self r rs)
      have htail := ih.2 (fun r0 h0 => hall r0 (List.mem_cons_of_mem r h0))
      simp only [permission_layer] at htail ⊢
      simpa [permission_go, hr] using htail

/-- Concrete inner service for exercising the permission layer. -/
def w6svc : Service String := fun _ => Response.noContent 204

/-- Witness for the permission_layer theorem: a single always-false rule
yields the fixed 403 body, and a single always-true rule delegates. -/
theorem permission_layer_rules_witness :
    permission_layer [fun _ => false] w6svc [] =
      Response.json 403
        [("message", JValue.jstr "you do not have permission to perform this action"),
         ("code", JValue.jint 403),
         ("details", JValue.jobj [])] ∧
    permission_layer [fun _ => true] w6svc [] = w6svc [] := by
  constructor
  · exact (permission_layer_rules String [fun _ => false] w6svc []).1
      ⟨fun _ => false, List.mem_singleton.mpr rfl, rfl⟩
  · refine (permission_layer_rules String [fun _ => true] w6svc []).2 ?_
    intro r hr
    have h := List.mem_singleton.mp hr
    subst h
    rfl

/-- Claim C10: has_permissions_layer applied to an empty permission list
always delegates to the wrapped service, and its single rule evaluates to
true on every context (the permission generator is empty, so the principal
under the user key is never even consulted). -/
theorem has_permissions_layer_empty_delegates (γ : Type) (user_ctx_key : String)
    (service : Service γ) (ctx : Ctx) :
    has_permissions_layer [] user_ctx_key service ctx = service ctx ∧
    has_permissions_rule [] user_ctx_key ctx = true :=
  ⟨rfl, rfl⟩

/-- Claim C3: for every exception stored under the reserved exception key,
the default handler produces a JSON response whose status is the exception's
status_code attribute when present and 500 otherwise, whose code defaults to
the resolved status and details to the empty object when those attributes are
absent, and whose message is the exception's string form unless the resolved
status is exactly 500, in which case it is exactly the generic internal
server error text. -/
theorem default_exception_handler_spec (γ : Type) (e : PyExn) (ctx : Ctx) :
    default_exception_handler γ
        (ctxSet ctx EXCEPTION_RESULT_CONTEXT_KEY (CtxVal.exn e)) =
      some (Response.json (e.status_code.getD 500)
        [("message", JValue.jstr
            (if e.status_code.getD 500 = 500 then "internal server error" else e.msg)),
         ("code", e.code.getD (JValue.jint (e.status_code.getD 500))),
         ("details", JValue.jobj (e.details.getD []))]) := by
  have hget := ctxGet_ctxSet_self ctx EXCEPTION_RESULT_CONTEXT_KEY (CtxVal.exn e)
  cases hs : e.status_code with
  | none =>
    cases hc : e.code <;> cases hd : e.details <;>
      simp [default_exception_handler, hget, hs, hc, hd]
  | some s =>
    by_cases h5 : s = 500 <;> cases hc : e.code <;> cases hd : e.details <;>
      simp [default_exception_handler, hget, hs, h5, hc, hd, bne]

/-- Claim C8: under the precondition that every credential key is present in
the context, authentication_layer stores under the user key the principal
resolved by the external authenticator from the request and the selected
context values, anonymous when the authenticator yields none, and then
continues unconditionally to the wrapped service, returning its response. -/
theorem authentication_layer_stores_and_continues (γ : Type)
    (authenticate : Option PyRequest → List (String × CtxVal) → Option PyUser)
    (kwarg_keys : List String) (user_ctx_key : String) (service : Service γ)
    (ctx : Ctx) (creds : List (String × CtxVal))
    (h : build_credentials ctx kwarg_keys = some creds) :
    authentication_layer authenticate kwarg_keys user_ctx_key service ctx =
      some (service (ctxSet ctx user_ctx_key
        (CtxVal.user ((authenticate (ctxRequest ctx) creds).getD anonymous_user)))) ∧
    ctxGet (ctxSet ctx user_ctx_key
        (CtxVal.user ((authenticate (ctxRequest ctx) creds).getD anonymous_user)))
        user_ctx_key =
      some (CtxVal.user ((authenticate (ctxRequest ctx) creds).getD anonymous_user)) := by
  refine ⟨?_, ctxGet_ctxSet_self ..⟩
  simp [authentication_layer, h]

/-- External authenticator that recognises nobody, for the witness. -/
def w8auth : Option PyRequest → List (String × CtxVal) → Option PyUser :=
  fun _ _ => none

/-- Concrete wrapped service for the authentication witness. -/
def w8svc : Service String := fun _ => Response.noContent 204

/-- Concrete context carrying one credential value for the authentication
witness. -/
def w8ctx : Ctx := [("token", CtxVal.str "t0")]

/-- Witness for the authentication_layer theorem at a context holding the
one selected credential: the anonymous sentinel is stored and the wrapped
service is reached. -/
theorem authentication_layer_stores_and_continues_witness :
    authentication_layer w8auth ["token"] USER_CONTEXT_KEY w8svc w8ctx =
      some (w8svc (ctxSet w8ctx USER_CONTEXT_KEY (CtxVal.user anonymous_user))) ∧
    ctxGet (ctxSet w8ctx USER_CONTEXT_KEY (CtxVal.user anonymous_user))
        USER_CONTEXT_KEY = some (CtxVal.user anonymous_user) := by
  exact authentication_layer_stores_and_continues String w8auth ["token"]
    USER_CONTEXT_KEY w8svc w8ctx [("token", CtxVal.str "t0")] rfl

/-- Claim C4 (amended): when the parsed offset and the clamped parsed limit
are non-negative, the pagination filterer returns the slice of the collection
starting at the offset and taking at most the clamped limit of elements,
where limit and offset come from the like-named query parameters with
defaults 10 and 0, fall back to those defaults when int() rejects the value,
and the limit is capped at 500. -/
theorem limit_offset_filterer_slices (α : Type) (r : PyRequest) (ctx : Ctx)
    (xs : List α)
    (hreq : ctxRequest ctx = some r)
    (hoff : 0 ≤ query_int r.GET "offset" 0)
    (hlim : 0 ≤ min (query_int r.GET "limit" 10) 500) :
    limit_offset_filterer "limit" "offset" ctx (some xs) =
      some ((xs.drop (query_int r.GET "offset" 0).toNat).take
        (min (query_int r.GET "limit" 10) 500).toNat) := by
  have hstop :
      0 ≤ query_int r.GET "offset" 0 + min (query_int r.GET "limit" 10) 500 :=
    add_nonneg hoff hlim
  have hcount :
      (query_int r.GET "offset" 0 + min (query_int r.GET "limit" 10) 500).toNat -
          (query_int r.GET "offset" 0).toNat =
        (min (query_int r.GET "limit" 10) 500).toNat := by
    omega
  simp [limit_offset_filterer, hreq, islice, hoff, hstop, hcount]

/-- Request and context for the first pagination witness: limit 1, offset 0. -/
def w4req1 : PyRequest := { method := "GET", GET := [("limit", "1"), ("offset", "0")] }

/-- Context holding the first pagination witness request. -/
def w4ctx1 : Ctx := [("__request__", CtxVal.req w4req1)]

/-- Request and context for the second pagination witness: limit 1, offset 1. -/
def w4req2 : PyRequest := { method := "GET", GET := [("limit", "1"), ("offset", "1")] }

/-- Context holding the second pagination witness request. -/
def w4ctx2 : Ctx := [("__request__", CtxVal.req w4req2)]

/-- Witness for the pagination theorem on a two-element collection: limit 1
with offset 0 yields item 0 only and offset 1 yields item 1 only. -/
theorem limit_offset_filterer_slices_witness :
    limit_offset_filterer "limit" "offset" w4ctx1 (some [(10 : Int), 20]) = some [10] ∧
    limit_offset_filterer "limit" "offset" w4ctx2 (some [(10 : Int), 20]) = some [20] := by
  constructor
  · exact (limit_offset_filterer_slices Int w4req1 w4ctx1 [10, 20] rfl
      (by decide) (by decide)).trans (by decide)
  · exact (limit_offset_filterer_slices Int w4req2 w4ctx2 [10, 20] rfl
      (by decide) (by decide)).trans (by decide)

/-- Request whose limit parameter is the numeric string -1. -/
def c4req : PyRequest := { method := "GET", GET := [("limit", "-1")] }

/-- Context holding the negative-limit request. -/
def c4ctx : Ctx := [("__request__", CtxVal.req c4req)]

/-- Counterexample to claim C4 as stated: limit=-1 is numeric, so no fallback
applies, and islice(xs, 0, min(-1, 500)) raises ValueError instead of
returning a slice of the collection: the filterer produces no list at all. -/
theorem limit_offset_filterer_negative_limit_raises :
    limit_offset_filterer "limit" "offset" c4ctx (some [(0 : Int), 1]) = none :=
  rfl

/-- Claim C5 (amended): whenever threading None through the filterers
produces an iterable (in particular whenever the chain is non-empty),
detail_service answers the fixed 404 body when the first-element idiom
yields Python None, which happens both for an empty final iterable and for
one whose first element is None, and otherwise serializes that first element
and returns its content with status 200. -/
theorem detail_service_first_element (γ α : Type) (serializer : SerializerM α γ)
    (filterers : List (FiltererM α)) (ctx : Ctx) (instances : List (Option α))
    (h : run_filterers filterers ctx = some instances) :
    (first_instance instances = none →
      detail_service serializer filterers ctx =
        some (Response.json 404
          [("message", JValue.jstr "not found"),
           ("code", JValue.jint 404),
           ("details", JValue.jobj [])])) ∧
    (∀ a : α, first_instance instances = some a →
      detail_service serializer filterers ctx =
        some (Response.content 200 (serializer ctx (some a)).1
          (serializer ctx (some a)).2)) := by
  constructor
  · intro hfi
    simp [detail_service, h, hfi, view404]
  · intro a hfi
    simp [detail_service, h, hfi]

/-- Serializer for the detail witness. -/
def w5ser : SerializerM Int String := fun _ _ => ("ct", "BODY")

/-- Filterer producing a one-element collection for the detail witness. -/
def w5filt : FiltererM Int := fun _ _ => [some 7]

/-- Filterer producing an empty collection for the detail witness. -/
def w5filt404 : FiltererM Int := fun _ _ => []

/-- Witness for the detail_service theorem: a chain yielding one instance is
serialized into a 200 response, and a chain yielding zero instances answers
the fixed 404 body. -/
theorem detail_service_first_element_witness :
    detail_service w5ser [w5filt] [] = some (Response.content 200 "ct" "BODY") ∧
    detail_service w5ser [w5filt404] [] =
      some (Response.json 404
        [("message", JValue.jstr "not found"),
         ("code", JValue.jint 404),
         ("details", JValue.jobj [])]) := by
  constructor
  · exact (detail_service_first_element String Int w5ser [w5filt] [] [some 7] rfl).2 7 rfl
  · exact (detail_service_first_element String Int w5ser [w5filt404] [] [] rfl).1 rfl

/-- Serializer for the None-first counterexample. -/
def c5ser : SerializerM Int String := fun _ _ => ("text/plain", "SERIALIZED")

/-- Filterer whose final iterable is the non-empty list holding Python None. -/
def c5filt : FiltererM Int := fun _ _ => [none]

/-- Counterexample to claim C5 as stated: the final iterable holds one
element (Python None), yet detail_service answers the 404 body instead of
serializing that first element into a 200 response with its content. -/
theorem detail_service_none_first_not_serialized :
    detail_service c5ser [c5filt] [] =
      some (Response.json 404
        [("message", JValue.jstr "not found"),
         ("code", JValue.jint 404),
         ("details", JValue.jobj [])]) :=
  rfl

/-- Claim C9: when the filtered iterable is non-empty but its first element
is Python None, detail_service, update_service and delete_service all answer
the 404 not-found response instead of serializing or mutating that element:
the first-element idiom makes a None head indistinguishable from an empty
result. -/
theorem none_first_element_is_not_found (γ α : Type)
    (serializer : SerializerM α γ) (mutater : MutatorM α γ)
    (filterers : List (FiltererM α)) (ctx : Ctx) (rest : List (Option α))
    (h : run_filterers filterers ctx = some (none :: rest)) :
    detail_service serializer filterers ctx = some (view404 ctx) ∧
    update_service mutater serializer filterers ctx = some (view404 ctx) ∧
    delete_service mutater filterers ctx = some (view404 ctx) ∧
    first_instance (none :: rest) = first_instance ([] : List (Option α)) := by
  refine ⟨?_, ?_, ?_, rfl⟩ <;>
    simp [detail_service, update_service, delete_service, h, first_instance]

/-- Serializer for the C9 witness. -/
def w9ser : SerializerM Int String := fun _ _ => ("ct", "X")

/-- Mutator for the C9 witness: succeeds without an error response. -/
def w9mut : MutatorM Int String := fun _ x => (x, none)

/-- Filterer yielding the non-empty collection holding only Python None. -/
def w9filt : FiltererM Int := fun _ _ => [none]

/-- Witness for the C9 theorem at a chain yielding the collection holding
only Python None. -/
theorem none_first_element_is_not_found_witness :
    detail_service w9ser [w9filt] [] = some (view404 []) ∧
    update_service w9mut w9ser [w9filt] [] = some (view404 []) ∧
    delete_service w9mut [w9filt] [] = some (view404 []) ∧
    first_instance ([none] : List (Option Int)) =
      first_instance ([] : List (Option Int)) :=
  none_first_element_is_not_found String Int w9ser w9mut [w9filt] [] [] rfl

/-- The exception raised by the leaking body below. -/
def c1_exn : PyExn := { msg := "boom", status_code := none, code := none, details := none }

/-- A wrapped computation that writes the key leak into the ambient facet and
then raises. -/
def c1_raising_body : Option Ctx → Except PyExn Unit × Option Ctx :=
  fun ambient => (Except.error c1_exn, some (ctxSet (ambient.getD []) "leak" (CtxVal.int 1)))

/-- A wrapped computation that writes the key leak into the ambient facet and
returns normally. -/
def c1_ok_body : Option Ctx → Except PyExn Unit × Option Ctx :=
  fun ambient => (Except.ok (), some (ctxSet (ambient.getD []) "leak" (CtxVal.int 1)))

/-- Claim C1, evaluated at the failing input: on a normal exit enter_context
restores the prior (here: unset) facet, but when the wrapped computation
raises, the reset is skipped, the facet written inside stays installed after
the scope exits, and the key set inside the scope remains observable. -/
theorem enter_context_exception_leaks :
    (enter_context (some []) c1_ok_body none).2 = none ∧
    (enter_context (some []) c1_raising_body none).2 = some [("leak", CtxVal.int 1)] ∧
    ctxGet ((enter_context (some []) c1_raising_body none).2.getD []) "leak" =
      some (CtxVal.int 1) :=
  ⟨rfl, rfl, rfl⟩
